import Mathlib

/-!
# Verification of the EchoVault MCP memory service

A shallow embedding of the storage orchestration layer and the MCP tool-call
adapter of the `mcp-memory-service` repository, with theorems settling the
spec claims.  The adapter (`mcp_server.py`) is embedded from its source; the
storage orchestration layer (EchoVaultStorage and its backends) is not among
the provided sources — only its tests and callers are — so those parts are
modelled from the specification and are marked as such in their doc comments.
-/

namespace EchoVault

/-- A minimal JSON value type, matching what `json.dumps` serialises in the
adapter: objects, arrays, strings, numbers, booleans and null. -/
inductive Json where
  | str : String → Json
  | num : ℚ → Json
  | bool : Bool → Json
  | null : Json
  | arr : List Json → Json
  | obj : List (String × Json) → Json
deriving Repr

/-- Association lookup by key (first match), used for JSON object fields and
for hash-keyed backend tables. -/
def lookupKey {κ : Type} {α : Type} [DecidableEq κ] (k : κ) : List (κ × α) → Option α
  | [] => none
  | (k1, v) :: rest => if k1 = k then some v else lookupKey k rest

/-- Number of entries in an association list carrying the given key. -/
def countKey {κ : Type} {α : Type} [DecidableEq κ] (k : κ) (l : List (κ × α)) : Nat :=
  l.countP (fun p => decide (p.1 = k))

/-- Field access on a JSON object; `none` on non-objects and missing keys. -/
def Json.field (j : Json) (k : String) : Option Json :=
  match j with
  | Json.obj kvs => lookupKey k kvs
  | _ => none

/-- The key list of a JSON object; `none` on non-objects. -/
def Json.keys : Json → Option (List String)
  | Json.obj kvs => some (kvs.map (fun p => p.1))
  | _ => none

theorem lookupKey_none_iff_countKey_zero {κ α : Type} [DecidableEq κ] (k : κ)
    (l : List (κ × α)) : lookupKey k l = none ↔ countKey k l = 0 := by
  induction l with
  | nil => simp [lookupKey, countKey]
  | cons p rest ih =>
    obtain ⟨k1, v⟩ := p
    by_cases h : k1 = k
    · simp [lookupKey, countKey, List.countP_cons, h]
    · simpa [lookupKey, countKey, List.countP_cons, h] using ih

theorem countKey_pos_of_lookupKey_some {κ α : Type} [DecidableEq κ] {k : κ}
    {l : List (κ × α)} {v : α} (h : lookupKey k l = some v) : 1 ≤ countKey k l := by
  by_contra hlt
  have h0 : countKey k l = 0 := by omega
  have := (lookupKey_none_iff_countKey_zero k l).mpr h0
  rw [this] at h
  exact Option.noConfusion h

/-! ## The MCP tool-call adapter (`mcp_server.py`, present in the sources)

`EchoVaultMCPServer._handle_store_memory` builds a `Memory` from the
arguments (tags default to `[]`, importance to `0.5`), calls
`self.storage.store(memory)`, and places the awaited return value directly in
the `memory_id` field of an always-`success: true` response.  The storage
layer's `store` returns a `(success, message)` pair — as its callers in the
repository's tests unpack it (`success, message = await storage.store(memory)`)
— so the adapter's `memory_id` is that raw pair. -/

/-- Arguments of a `store_memory` tool call: `content` is required, `tags`
and `importance` are optional (`arguments.get` with defaults in the source). -/
structure StoreArgs where
  content : String
  tags : Option (List String)
  importance : Option ℚ

/-- How `json.dumps` renders the pair returned by `storage.store` when the
adapter embeds it in the response: a two-element array. -/
def encodeStoreRet (r : Bool × String) : Json :=
  Json.arr [Json.bool r.1, Json.str r.2]

/-- `EchoVaultMCPServer._handle_store_memory` (mcp_server.py lines 243-266):
defaults for omitted tags and importance, storage call, and the fixed
response object. `storageStore` stands for `self.storage.store`, which
returns a `(success, message)` pair. -/
def handleStoreMemory (storageStore : String → List String → ℚ → Bool × String)
    (args : StoreArgs) : Json :=
  let content := args.content
  let tags := args.tags.getD []
  let imp := args.importance.getD (1 / 2 : ℚ)
  let memoryId := storageStore content tags imp
  Json.obj [
    ("success", Json.bool true),
    ("memory_id", encodeStoreRet memoryId),
    ("message", Json.str ("Memory stored successfully with ID: " ++ toString memoryId.1)),
    ("content_length", Json.num (content.length : ℚ)),
    ("tags", Json.arr (tags.map Json.str)),
    ("importance", Json.num imp)]

/-- The tool names dispatched by `handle_call_tool`; `other` covers any
unknown tool name, which the source turns into a raised `ValueError`. -/
inductive ToolName where
  | store_memory
  | search_memories
  | search_by_tag
  | get_memory_stats
  | delete_memory
  | other : String → ToolName

/-- The dispatch inside the `try` block of `handle_call_tool` (mcp_server.py
lines 222-236): each known tool runs its handler — modelled by `exec`, whose
`Except.error` case is a raised Python exception — and an unknown name raises
`ValueError` with the unknown-tool message. -/
def dispatchTool (exec : ToolName → Json → Except String Json)
    (name : ToolName) (args : Json) : Except String Json :=
  match name with
  | ToolName.other s => Except.error ("Unknown tool: " ++ s)
  | n => exec n args

/-- `handle_call_tool` (mcp_server.py lines 205-241): the `except` clause
catches every exception from the dispatch and returns a structured payload
with an `error` field instead of re-raising. The function is total: every
call returns a `Json` value to the transport. -/
def handleCallTool (exec : ToolName → Json → Except String Json)
    (name : ToolName) (args : Json) : Json :=
  match dispatchTool exec name args with
  | Except.ok r => r
  | Except.error e =>
      Json.obj [("error", Json.str ("Error executing tool: " ++ e))]

/-! ## The storage orchestration layer

The orchestrator (`EchoVaultStorage` with its Neon, Qdrant and R2 clients,
the `Memory` model and the hashing util) is imported by the adapter and
exercised by the repository's tests, but its implementation files are not
among the provided sources.  The definitions below are therefore modelled
from the specification, following its step-by-step contracts. -/

/-- Where a memory's content lives, per the spec data model. -/
inductive StorageLocation where
  | INLINE
  | BLOB
deriving DecidableEq, Repr

/-- A relational row as the claims need it: the stored content (raw text or a
blob reference token), the routing decision, and the embedding vector. -/
structure Row where
  content : String
  storage_location : StorageLocation
  embedding : List ℚ
deriving DecidableEq, Repr

/-- The observable state of the three backends: relational rows keyed by
content hash (source of truth), blob objects keyed by hash, and the ANN
mirror's points keyed by the same id. -/
structure OState where
  relational : List (Nat × Row)
  blobs : List (Nat × String)
  mirror : List (Nat × List ℚ)
deriving DecidableEq, Repr

/-- Orchestrator configuration: the blob-offload size threshold, the
embedding collaborator (`none` models a failed embedding call), and whether
the best-effort mirror upsert succeeds. -/
structure StoreConfig where
  threshold : Nat
  embed : String → Option (List ℚ)
  mirrorUp : Bool

/-- Modelled from the spec: the ContentAddresser (`utils/hashing.py`, absent
from the sources). `hash(content, metadata?) -> digest` — a pure,
deterministic digest of the content together with the optional metadata; a
rolling hash over the characters stands in for the hex digest. -/
def contentHash (content : String) (metadata : List (String × String)) : Nat :=
  let s := metadata.foldl (fun acc kv => acc ++ "|" ++ kv.1 ++ "=" ++ kv.2) content
  s.foldl (fun h c => (h * 131 + c.toNat) % (2 ^ 64)) 5381

/-- The reference token left in the relational row when content is offloaded
to the blob store. -/
def refToken (h : Nat) : String := "blob:" ++ toString h

/-- Errors a store call can end in, from the spec's error taxonomy. -/
inductive StoreError where
  | EmbeddingFailed
deriving DecidableEq, Repr

/-- Outcome of a store call: the spec's `(success, id, message)` return plus
the degraded flag of step 6, or a classified error. -/
inductive StoreOutcome where
  | ok : Nat → String → Bool → StoreOutcome
  | error : StoreError → StoreOutcome
deriving DecidableEq, Repr

/-- Modelled from the spec: `MemoryOrchestrator.store` (EchoVaultStorage's
`store`, absent from the sources), steps 1-6 in order: hash, idempotent
short-circuit on an existing row, size-threshold blob offload, embedding
(failure fatal, before any relational write), mandatory relational persist,
best-effort mirror upsert.  Returns the post-state with the outcome, so a
failure's partial effects stay observable. -/
def store (cfg : StoreConfig) (st : OState) (content : String)
    (metadata : List (String × String)) : OState × StoreOutcome :=
  let h := contentHash content metadata
  match lookupKey h st.relational with
  | some _ => (st, StoreOutcome.ok h "already exists" false)
  | none =>
    let offload := decide (content.length > cfg.threshold)
    let storedContent := if offload then refToken h else content
    let loc := if offload then StorageLocation.BLOB else StorageLocation.INLINE
    let blobs1 := if offload then (h, content) :: st.blobs else st.blobs
    match cfg.embed content with
    | none => (⟨st.relational, blobs1, st.mirror⟩, StoreOutcome.error StoreError.EmbeddingFailed)
    | some emb =>
      let rel1 := (h, Row.mk storedContent loc emb) :: st.relational
      let mirror1 := if cfg.mirrorUp then (h, emb) :: st.mirror else st.mirror
      (⟨rel1, blobs1, mirror1⟩, StoreOutcome.ok h "stored" (!cfg.mirrorUp))

/-- A retrieve hit before post-processing: memory id, normalized relevance
score, and the row's creation timestamp used for tie-breaking. -/
structure SearchResult where
  id : Nat
  score : ℚ
  created_at : Nat
deriving DecidableEq, Repr

/-- Modelled from the spec: retrieve step 3 (absent from the sources).
Merge the relational and mirror result sets by memory id: an id present in
both keeps the maximum of the two normalized scores; an id present in only
one keeps that score. -/
def mergeById (rel mir : List (Nat × ℚ)) : List (Nat × ℚ) :=
  let relMerged := rel.map (fun p =>
    match lookupKey p.1 mir with
    | some s2 => (p.1, max p.2 s2)
    | none => p)
  let mirOnly := mir.filter (fun p => (lookupKey p.1 rel).isNone)
  relMerged ++ mirOnly

/-- The ranking order of retrieve step 4: higher score first, ties broken by
newer `created_at` first. -/
def rankedBefore (a b : SearchResult) : Prop :=
  b.score < a.score ∨ (a.score = b.score ∧ b.created_at ≤ a.created_at)

instance : DecidableRel rankedBefore := fun a b =>
  decidable_of_iff
    (b.score < a.score ∨ (a.score = b.score ∧ b.created_at ≤ a.created_at))
    Iff.rfl

instance : IsTotal SearchResult rankedBefore where
  total a b := by
    unfold rankedBefore
    rcases lt_trichotomy a.score b.score with h | h | h
    · exact Or.inr (Or.inl h)
    · rcases Nat.le_total b.created_at a.created_at with hc | hc
      · exact Or.inl (Or.inr ⟨h, hc⟩)
      · exact Or.inr (Or.inr ⟨h.symm, hc⟩)
    · exact Or.inl (Or.inl h)

instance : IsTrans SearchResult rankedBefore where
  trans a b c hab hbc := by
    unfold rankedBefore at *
    rcases hab with h1 | ⟨h1, h1c⟩ <;> rcases hbc with h2 | ⟨h2, h2c⟩
    · exact Or.inl (h2.trans h1)
    · exact Or.inl (by rw [← h2]; exact h1)
    · exact Or.inl (by rw [h1]; exact h2)
    · exact Or.inr ⟨h1.trans h2, h2c.trans h1c⟩

/-- Modelled from the spec: retrieve steps 4-5 (absent from the sources).
Discard entries below `similarityThreshold`, sort descending by score with
ties broken by newer `created_at`, truncate to `limit`. -/
def postProcess (merged : List SearchResult) (similarityThreshold : ℚ)
    (limit : Nat) : List SearchResult :=
  ((merged.filter (fun r => similarityThreshold ≤ r.score)).insertionSort
    rankedBefore).take limit

/-- Relational-side aggregate counters, per the spec's `stats()` contract. -/
structure RelStats where
  memory_count : Nat
  blob_count : Nat
deriving DecidableEq, Repr

/-- Modelled from the spec: `MemoryOrchestrator.getStats` (EchoVaultStorage's
`get_stats`, absent from the sources).  Aggregates the relational counts
with each mirror/blob provider's own stats; a provider whose stats call
failed (`none`) is simply left out of the report — an individual provider
failure yields a partial report, never an overall failure, so the function
is total and never raises. -/
def getStats (rel : RelStats) (providers : List (String × Option Json)) : Json :=
  Json.obj [
    ("memory_count", Json.num (rel.memory_count : ℚ)),
    ("blob_count", Json.num (rel.blob_count : ℚ)),
    ("providers", Json.arr (providers.filterMap (fun p =>
      p.2.map (fun s => Json.obj [("name", Json.str p.1), ("stats", s)]))))]

/-- `EchoVaultMCPServer._handle_get_memory_stats` (mcp_server.py lines
327-346) on a storage backend that has `get_stats`: the `try` branch wraps
the stats in a `success: true` response; the `except` branch would return
`success: false` only if `get_stats` raised, which the spec-modelled
`getStats` never does. -/
def handleGetMemoryStats (rel : RelStats)
    (providers : List (String × Option Json)) : Json :=
  Json.obj [("success", Json.bool true), ("stats", getStats rel providers)]

/-- Modelled from the spec: `MemoryOrchestrator.deleteMemory` (absent from
the sources).  Cascading best-effort delete across the three stores; the
returned success flag is the relational delete alone (`false` for an unknown
id), while mirror/blob delete failures (`mirrorOk`/`blobOk` false) are
logged, not propagated. -/
def deleteMemory (st : OState) (mirrorOk blobOk : Bool) (id : Nat) :
    OState × Bool :=
  let found := (lookupKey id st.relational).isSome
  let rel1 := st.relational.filter (fun p => decide (p.1 ≠ id))
  let mirror1 := if mirrorOk then st.mirror.filter (fun p => decide (p.1 ≠ id)) else st.mirror
  let blobs1 := if blobOk then st.blobs.filter (fun p => decide (p.1 ≠ id)) else st.blobs
  (⟨rel1, blobs1, mirror1⟩, found)

/-- `EchoVaultMCPServer._handle_delete_memory` (mcp_server.py lines 348-369)
on a storage backend that has `delete_memory`: the boolean returned by the
storage delete becomes the `success` field, with a not-found message when it
is false; no exception reaches the caller. -/
def handleDeleteMemory (st : OState) (mirrorOk blobOk : Bool) (id : Nat) : Json :=
  let success := (deleteMemory st mirrorOk blobOk id).2
  Json.obj [
    ("success", Json.bool success),
    ("memory_id", Json.num (id : ℚ)),
    ("message", Json.str
      (if success then "Memory deleted successfully" else "Memory not found"))]

/-! ## Theorems settling the claims -/

/-- C7: every `store_memory` tool call that completes without an internal
exception returns an object with exactly the keys `success`, `memory_id`,
`message`, `content_length`, `tags` and `importance`, where `success` is
true, `content_length` is the character length of the submitted content,
and `tags` and `importance` echo the submitted values — an empty list and
`0.5` respectively when omitted. -/
theorem store_memory_response_shape
    (f : String → List String → ℚ → Bool × String) (args : StoreArgs) :
    (handleStoreMemory f args).keys = some
      ["success", "memory_id", "message", "content_length", "tags", "importance"] ∧
    (handleStoreMemory f args).field "success" = some (Json.bool true) ∧
    (handleStoreMemory f args).field "content_length"
      = some (Json.num (args.content.length : ℚ)) ∧
    (handleStoreMemory f args).field "tags"
      = some (Json.arr ((args.tags.getD []).map Json.str)) ∧
    (handleStoreMemory f args).field "importance"
      = some (Json.num (args.importance.getD (1 / 2 : ℚ))) ∧
    (handleStoreMemory f (StoreArgs.mk args.content none none)).field "tags"
      = some (Json.arr []) ∧
    (handleStoreMemory f (StoreArgs.mk args.content none none)).field "importance"
      = some (Json.num (1 / 2 : ℚ)) := by
  refine ⟨rfl, rfl, ?_, ?_, ?_, ?_, ?_⟩ <;>
    simp [handleStoreMemory, Json.field, lookupKey]

/-- C10: whenever `storage.store` returns without raising, the adapter
reports `success = true` and places the raw return value — the storage
layer's `(success, message)` pair — in the `memory_id` field, so a failure
reported through that pair's first component is still surfaced to the
caller as `success = true` with the pair as the id. -/
theorem store_memory_raw_pair_as_id
    (f : String → List String → ℚ → Bool × String) (args : StoreArgs)
    (msg : String) :
    (handleStoreMemory f args).field "success" = some (Json.bool true) ∧
    (handleStoreMemory f args).field "memory_id"
      = some (encodeStoreRet
          (f args.content (args.tags.getD []) (args.importance.getD (1 / 2 : ℚ)))) ∧
    (handleStoreMemory (fun _ _ _ => (false, msg)) args).field "success"
      = some (Json.bool true) ∧
    (handleStoreMemory (fun _ _ _ => (false, msg)) args).field "memory_id"
      = some (Json.arr [Json.bool false, Json.str msg]) := by
  exact ⟨rfl, rfl, rfl, rfl⟩

/-- C6: any exception raised while executing a tool — including the
`ValueError` raised for an unknown tool name — is caught by
`handle_call_tool` and turned into a structured JSON payload with an
`error` field; the handler is a total function into `Json`, so no
exception reaches the caller's transport. -/
theorem tool_call_errors_structured
    (exec : ToolName → Json → Except String Json) (name : ToolName) (args : Json) :
    (∀ e, dispatchTool exec name args = Except.error e →
      ((handleCallTool exec name args).field "error").isSome = true) ∧
    (∀ s, ((handleCallTool exec (ToolName.other s) args).field "error").isSome = true) := by
  constructor
  · intro e he
    simp [handleCallTool, he, Json.field, lookupKey]
  · intro s
    simp [handleCallTool, dispatchTool, Json.field, lookupKey]

/-- C6 witness: a handler that raises on `store_memory` still yields a
payload carrying an `error` field. -/
theorem tool_call_errors_structured_witness :
    ((handleCallTool (fun _ _ => Except.error "backend down")
      ToolName.store_memory Json.null).field "error").isSome = true :=
  (tool_call_errors_structured (fun _ _ => Except.error "backend down")
    ToolName.store_memory Json.null).1 "backend down" rfl

/-- C8: a `get_memory_stats` call is never an overall failure: whatever
subset of providers fail, the response carries `success = true`, and the
stats report still contains an entry for every provider whose own stats
call succeeded (a partial report). -/
theorem stats_partial_never_overall_failure (rel : RelStats)
    (providers : List (String × Option Json)) :
    (handleGetMemoryStats rel providers).field "success" = some (Json.bool true) ∧
    (handleGetMemoryStats rel providers).field "stats" = some (getStats rel providers) ∧
    ∀ n s, (n, some s) ∈ providers →
      ∃ l, (getStats rel providers).field "providers" = some (Json.arr l) ∧
        Json.obj [("name", Json.str n), ("stats", s)] ∈ l := by
  refine ⟨rfl, rfl, ?_⟩
  intro n s hmem
  refine ⟨_, rfl, ?_⟩
  exact List.mem_filterMap.mpr ⟨(n, some s), hmem, rfl⟩

/-- C8 witness: with the mirror provider failed and the blob provider
healthy, the call still succeeds and the blob provider's stats appear in
the report. -/
theorem stats_partial_witness :
    (handleGetMemoryStats (RelStats.mk 3 1)
        [("qdrant", none), ("r2", some (Json.num 7))]).field "success"
      = some (Json.bool true) ∧
    ∃ l, (getStats (RelStats.mk 3 1)
        [("qdrant", none), ("r2", some (Json.num 7))]).field "providers"
      = some (Json.arr l) ∧
      Json.obj [("name", Json.str "r2"), ("stats", Json.num 7)] ∈ l := by
  have h := stats_partial_never_overall_failure (RelStats.mk 3 1)
    [("qdrant", none), ("r2", some (Json.num 7))]
  exact ⟨h.1, h.2.2 "r2" (Json.num 7) (by simp)⟩

/-- C9: delete success is determined by the relational delete alone — the
returned flag equals whether the id was present relationally, independent
of mirror/blob delete failures — and deleting an unknown id yields a
`success = false`, "Memory not found" payload rather than an exception. -/
theorem delete_relational_only (st : OState) (id : Nat)
    (mirrorOk blobOk mirrorOk2 blobOk2 : Bool) :
    (deleteMemory st mirrorOk blobOk id).2 = (lookupKey id st.relational).isSome ∧
    (deleteMemory st mirrorOk blobOk id).2 = (deleteMemory st mirrorOk2 blobOk2 id).2 ∧
    (lookupKey id st.relational = none →
      handleDeleteMemory st mirrorOk blobOk id = Json.obj [
        ("success", Json.bool false),
        ("memory_id", Json.num (id : ℚ)),
        ("message", Json.str "Memory not found")]) := by
  refine ⟨rfl, rfl, ?_⟩
  intro hnone
  simp [handleDeleteMemory, deleteMemory, hnone]

/-- C9 witness: deleting id 7 from an empty store, with both mirror and
blob deletes failing, returns the structured not-found payload. -/
theorem delete_relational_only_witness :
    handleDeleteMemory (OState.mk [] [] []) false false 7 = Json.obj [
      ("success", Json.bool false),
      ("memory_id", Json.num (7 : ℚ)),
      ("message", Json.str "Memory not found")] :=
  (delete_relational_only (OState.mk [] [] []) 7 false false true true).2.2 rfl

theorem lookupKey_append_left {κ α : Type} [DecidableEq κ] {k : κ}
    {l1 l2 : List (κ × α)} {v : α} (h : lookupKey k l1 = some v) :
    lookupKey k (l1 ++ l2) = some v := by
  induction l1 with
  | nil => simp [lookupKey] at h
  | cons p rest ih =>
    obtain ⟨k1, v1⟩ := p
    by_cases hk : k1 = k
    · rw [lookupKey, if_pos hk] at h
      simpa [lookupKey, hk] using h
    · rw [lookupKey, if_neg hk] at h
      simpa [lookupKey, hk] using ih h

/-- C2: when a memory id appears in both the relational result set and the
mirror result set, the merged relevance score is the maximum of the two
normalized scores. -/
theorem merge_max_policy (rel mir : List (Nat × ℚ)) (id : Nat) (s1 s2 : ℚ)
    (h1 : lookupKey id rel = some s1) (h2 : lookupKey id mir = some s2) :
    lookupKey id (mergeById rel mir) = some (max s1 s2) := by
  have hm : lookupKey id (rel.map (fun p =>
      match lookupKey p.1 mir with
      | some x => (p.1, max p.2 x)
      | none => p)) = some (max s1 s2) := by
    induction rel with
    | nil => simp [lookupKey] at h1
    | cons p rest ih =>
      obtain ⟨k1, v1⟩ := p
      by_cases hk : k1 = id
      · subst hk
        rw [lookupKey, if_pos rfl] at h1
        injection h1 with h1
        subst h1
        simp [lookupKey, h2]
      · rw [lookupKey, if_neg hk] at h1
        cases hmir : lookupKey k1 mir <;>
          simpa [lookupKey, hk, hmir] using ih h1
  exact lookupKey_append_left hm

/-- C2 witness: a memory scored 0.6 relationally and 0.8 by the mirror is
merged with score 0.8. -/
theorem merge_max_policy_witness :
    lookupKey 1 (mergeById [(1, (3 : ℚ) / 5)] [(1, (4 : ℚ) / 5)])
      = some ((4 : ℚ) / 5) := by
  have h := merge_max_policy [(1, (3 : ℚ) / 5)] [(1, (4 : ℚ) / 5)] 1
    ((3 : ℚ) / 5) ((4 : ℚ) / 5) rfl rfl
  rw [h]
  norm_num [max_eq_right]

/-- C5: the list a successful retrieve returns after post-processing has no
entry scored below the similarity threshold, is sorted by descending score
with ties broken by newer creation time, and has at most `limit` entries. -/
theorem retrieve_postprocessing_contract (merged : List SearchResult)
    (thr : ℚ) (limit : Nat) :
    (∀ x ∈ postProcess merged thr limit, thr ≤ x.score) ∧
    List.Sorted rankedBefore (postProcess merged thr limit) ∧
    (postProcess merged thr limit).length ≤ limit := by
  refine ⟨?_, ?_, ?_⟩
  · intro x hx
    have hx1 : x ∈ (merged.filter (fun r => thr ≤ r.score)).insertionSort
        rankedBefore :=
      (List.take_sublist _ _).mem hx
    have hx2 : x ∈ merged.filter (fun r => thr ≤ r.score) :=
      (List.mem_insertionSort rankedBefore).mp hx1
    exact of_decide_eq_true (List.mem_filter.mp hx2).2
  · exact List.Pairwise.sublist (List.take_sublist _ _)
      (List.sorted_insertionSort rankedBefore _)
  · calc (postProcess merged thr limit).length
        = min limit ((merged.filter (fun r => thr ≤ r.score)).insertionSort
            rankedBefore).length := List.length_take _ _
      _ ≤ limit := min_le_left _ _

/-- C5 witness: on a concrete merged list the contract instantiates — the
surviving entry's score clears the threshold. -/
theorem retrieve_postprocessing_witness :
    (0 : ℚ) ≤ (SearchResult.mk 1 1 10).score :=
  (retrieve_postprocessing_contract [SearchResult.mk 1 1 10] 0 5).1
    (SearchResult.mk 1 1 10) (by decide)

/-- C1: storing the same (content, metadata) twice is idempotent — given the
dedup invariant (at most one row per hash), a successful store leaves the
relational store with exactly one row keyed by the returned id, and a second
store of the same input succeeds with the same id and the message
"already exists", leaving every backend untouched regardless of the second
call's configuration (threshold, embedder, mirror availability) — hence
without blob, embedding, or mirror work. -/
theorem store_idempotent (cfg : StoreConfig) (st : OState) (content : String)
    (metadata : List (String × String)) (st1 : OState) (id1 : Nat)
    (msg1 : String) (d1 : Bool)
    (hinv : countKey (contentHash content metadata) st.relational ≤ 1)
    (h1 : store cfg st content metadata = (st1, StoreOutcome.ok id1 msg1 d1)) :
    (∀ cfg2 : StoreConfig, store cfg2 st1 content metadata
        = (st1, StoreOutcome.ok id1 "already exists" false)) ∧
    countKey id1 st1.relational = 1 := by
  simp only [store] at h1
  cases hl : lookupKey (contentHash content metadata) st.relational with
  | some row =>
    rw [hl] at h1
    simp only [Prod.mk.injEq, StoreOutcome.ok.injEq] at h1
    obtain ⟨hst, hid, hmsg, hd⟩ := h1
    subst hst hid hmsg hd
    refine ⟨?_, ?_⟩
    · intro cfg2
      simp [store, hl]
    · exact le_antisymm hinv (countKey_pos_of_lookupKey_some hl)
  | none =>
    rw [hl] at h1
    cases hemb : cfg.embed content with
    | none => rw [hemb] at h1; simp at h1
    | some emb =>
      rw [hemb] at h1
      simp only [Prod.mk.injEq, StoreOutcome.ok.injEq] at h1
      obtain ⟨hst, hid, hmsg, hd⟩ := h1
      subst hst hid hmsg hd
      have hcount0 : countKey (contentHash content metadata) st.relational = 0 :=
        (lookupKey_none_iff_countKey_zero _ _).mp hl
      refine ⟨?_, ?_⟩
      · intro cfg2
        simp [store, lookupKey]
      · simp only [countKey] at hcount0 ⊢
        simp [List.countP_cons, hcount0]

/-- C1 witness: after storing "hi" once from an empty state, a second store
of the same input returns the same id with "already exists", leaves the
state unchanged, and exactly one row carries the hash. -/
theorem store_idempotent_witness :
    store (StoreConfig.mk 100 (fun _ => some [(1 : ℚ)]) true)
      (OState.mk [(contentHash "hi" [], Row.mk "hi" StorageLocation.INLINE [1])] []
        [(contentHash "hi" [], [1])]) "hi" []
      = (OState.mk [(contentHash "hi" [], Row.mk "hi" StorageLocation.INLINE [1])] []
          [(contentHash "hi" [], [1])],
        StoreOutcome.ok (contentHash "hi" []) "already exists" false) ∧
    countKey (contentHash "hi" [])
      [(contentHash "hi" [], Row.mk "hi" StorageLocation.INLINE [(1 : ℚ)])] = 1 := by
  have h := store_idempotent (StoreConfig.mk 100 (fun _ => some [(1 : ℚ)]) true)
    (OState.mk [] [] []) "hi" []
    (OState.mk [(contentHash "hi" [], Row.mk "hi" StorageLocation.INLINE [1])] []
      [(contentHash "hi" [], [1])])
    (contentHash "hi" []) "stored" false (by simp [countKey]) rfl
  exact ⟨h.1 _, h.2⟩

/-- C3: on a fresh (non-duplicate) successful store, content strictly longer
than the threshold is written to the blob store under the hash key while the
relational row holds the reference token with `storage_location = BLOB`;
content at or below the threshold is stored inline and leaves the blob
store untouched. -/
theorem threshold_routing (cfg : StoreConfig) (st : OState) (content : String)
    (metadata : List (String × String)) (st1 : OState) (id1 : Nat)
    (msg1 : String) (d1 : Bool)
    (hfresh : lookupKey (contentHash content metadata) st.relational = none)
    (h1 : store cfg st content metadata = (st1, StoreOutcome.ok id1 msg1 d1)) :
    (cfg.threshold < content.length →
      lookupKey id1 st1.blobs = some content ∧
      ∃ emb, cfg.embed content = some emb ∧
        lookupKey id1 st1.relational
          = some (Row.mk (refToken id1) StorageLocation.BLOB emb)) ∧
    (content.length ≤ cfg.threshold →
      st1.blobs = st.blobs ∧
      ∃ emb, cfg.embed content = some emb ∧
        lookupKey id1 st1.relational
          = some (Row.mk content StorageLocation.INLINE emb)) := by
  simp only [store] at h1
  rw [hfresh] at h1
  cases hemb : cfg.embed content with
  | none => rw [hemb] at h1; simp at h1
  | some emb =>
    rw [hemb] at h1
    simp only [Prod.mk.injEq, StoreOutcome.ok.injEq] at h1
    obtain ⟨hst, hid, hmsg, hd⟩ := h1
    subst hst hid hmsg hd
    constructor
    · intro hgt
      refine ⟨?_, emb, rfl, ?_⟩ <;> simp [lookupKey, hgt]
    · intro hle
      have hngt : ¬cfg.threshold < content.length := not_lt.mpr hle
      refine ⟨?_, emb, rfl, ?_⟩ <;> simp [lookupKey, hngt]

/-- C3 witness: with threshold 1, storing the three-character content "abc"
offloads it to the blob store and leaves a BLOB-routed reference row. -/
theorem threshold_routing_witness :
    lookupKey (contentHash "abc" [])
      [(contentHash "abc" [], "abc")] = some "abc" ∧
    ∃ emb, (fun _ : String => some [(2 : ℚ)]) "abc" = some emb ∧
      lookupKey (contentHash "abc" [])
        [(contentHash "abc" [],
          Row.mk (refToken (contentHash "abc" [])) StorageLocation.BLOB [(2 : ℚ)])]
        = some (Row.mk (refToken (contentHash "abc" []))
            StorageLocation.BLOB emb) := by
  have h := threshold_routing (StoreConfig.mk 1 (fun _ => some [(2 : ℚ)]) true)
    (OState.mk [] [] []) "abc" []
    (OState.mk
      [(contentHash "abc" [],
        Row.mk (refToken (contentHash "abc" [])) StorageLocation.BLOB [(2 : ℚ)])]
      [(contentHash "abc" [], "abc")]
      [(contentHash "abc" [], [(2 : ℚ)])])
    (contentHash "abc" []) "stored" false rfl rfl
  exact h.1 (by decide)

/-- C4: on a fresh store call whose embedding computation fails, the call
fails with `EmbeddingFailed` and no relational row is persisted; moreover,
across all store calls, every newly persisted relational row carries
exactly the embedding the collaborator returned — a vector-less row is
never persisted. -/
theorem embedding_failure_fatal (cfg : StoreConfig) (st : OState)
    (content : String) (metadata : List (String × String))
    (hfresh : lookupKey (contentHash content metadata) st.relational = none)
    (hemb : cfg.embed content = none) :
    (store cfg st content metadata).2
      = StoreOutcome.error StoreError.EmbeddingFailed ∧
    (store cfg st content metadata).1.relational = st.relational ∧
    ∀ (cfg2 : StoreConfig) (st2 : OState) (c2 : String)
      (md2 : List (String × String)) (p : Nat × Row),
      p ∈ (store cfg2 st2 c2 md2).1.relational →
      p ∈ st2.relational ∨ cfg2.embed c2 = some p.2.embedding := by
  refine ⟨?_, ?_, ?_⟩
  · simp [store, hfresh, hemb]
  · simp [store, hfresh, hemb]
  · intro cfg2 st2 c2 md2 p hp
    simp only [store] at hp
    cases hl2 : lookupKey (contentHash c2 md2) st2.relational with
    | some row => rw [hl2] at hp; exact Or.inl hp
    | none =>
      rw [hl2] at hp
      cases hemb2 : cfg2.embed c2 with
      | none => rw [hemb2] at hp; exact Or.inl hp
      | some emb2 =>
        rw [hemb2] at hp
        simp only [List.mem_cons] at hp
        rcases hp with hp | hp
        · subst hp
          exact Or.inr (by simp [hemb2])
        · exact Or.inl hp

/-- C4 witness: a failing embedder on a fresh store of "x" yields the
`EmbeddingFailed` outcome with the relational store left empty. -/
theorem embedding_failure_fatal_witness :
    (store (StoreConfig.mk 100 (fun _ => none) true)
      (OState.mk [] [] []) "x" []).2
      = StoreOutcome.error StoreError.EmbeddingFailed ∧
    (store (StoreConfig.mk 100 (fun _ => none) true)
      (OState.mk [] [] []) "x" []).1.relational = [] := by
  have h := embedding_failure_fatal (StoreConfig.mk 100 (fun _ => none) true)
    (OState.mk [] [] []) "x" [] rfl rfl
  exact ⟨h.1, h.2.1⟩

end EchoVault
